import Mathlib

/-
Shallow embedding of the two MongoDB report scripts of this repository:

* `count_valid_device_users.py` — counts users having at least one device
  sub-document with `device_id`, `created` and `last_access` all present.
* `extract_active_devices.py` — filters users by an identifier condition and a
  recency gate, cross-expands the `devices` and `authenticators` arrays
  (`$unwind` with `preserveNullAndEmptyArrays`), projects and resolves the
  output fields with Python `dict.get` / `or` fallback chains, normalizes
  epoch-millisecond timestamps, and sorts the flattened records.

Documents are JSON-like: fields are optional and, when present, hold a value
that may be `null`.  We embed scalar values as the inductive `Value`
(numerics are modelled as `Int`; Python `bool` counts as numeric, as in
CPython where `bool` is a subclass of `int`).  An absent field is `none`, a
present field is `some v` (`some Value.vNull` for an explicit null) — presence
and truthiness stay distinct, exactly as in the source.
-/

namespace MongoRepo

/-- Scalar JSON/BSON value as seen by the scripts. -/
inductive Value where
  | vNull : Value
  | vInt : Int → Value
  | vStr : String → Value
  | vBool : Bool → Value
deriving DecidableEq

/-- Device sub-document: all fields optional (`devices` array elements). -/
structure Device where
  device_id : Option Value
  created : Option Value
  last_access : Option Value
deriving DecidableEq

/-- Authenticator sub-document: all fields optional. -/
structure Auth where
  method : Option Value
  device_id : Option Value
  last_used : Option Value
  status : Option Value
  provider_config_id : Option Value
  expired : Option Value
deriving DecidableEq

/-- A user document with the three fields the pipelines touch.  `none` models
an absent field; `devices`/`authenticators`, when present, are arrays. -/
structure UserDoc where
  user_id : Option Value
  devices : Option (List Device)
  authenticators : Option (List Auth)
deriving DecidableEq

/-- Python truthiness of an embedded value (`None`, `0`, `""`, `False` are
falsy), as used by the `or` fallback chains in the extraction script. -/
def truthy : Value → Bool
  | Value.vNull => false
  | Value.vInt n => !(n == 0)
  | Value.vStr s => !(s == "")
  | Value.vBool b => b

/-- Python `x or y`: `x` if truthy, else `y`. -/
def pyOr (x y : Value) : Value := if truthy x then x else y

/-- Python `dict.get(k)` over an optional field: a missing field reads as
`None`. -/
def getV (o : Option Value) : Value := o.getD Value.vNull

/-- Python numeric view of a value: `isinstance(v, (int, float))`.  Booleans
are numeric in Python (`True == 1`, `False == 0`); strings and `None` are
not.  Numerics of the repository are epoch milliseconds, embedded as `Int`. -/
def pyNum : Value → Option Int
  | Value.vInt n => some n
  | Value.vBool b => some (if b then 1 else 0)
  | _ => none

/-- Python `str(v)` for the embedded scalar values. -/
def pyStr : Value → String
  | Value.vNull => "None"
  | Value.vInt n => toString n
  | Value.vStr s => s
  | Value.vBool b => if b then "True" else "False"

/-- Zero-padded two-digit rendering, as `strftime` uses for `%m %d %H %M %S`. -/
def pad2 (n : Nat) : String := if n < 10 then "0" ++ toString n else toString n

/-- Zero-padded four-digit rendering, as `strftime` uses for `%Y`. -/
def pad4 (n : Nat) : String :=
  if n < 10 then "000" ++ toString n
  else if n < 100 then "00" ++ toString n
  else if n < 1000 then "0" ++ toString n
  else toString n

/-- Gregorian civil date (year, month, day) from a count of days since
1970-01-01, the standard era-based conversion used by calendar libraries. -/
def civilFromDays (z : Nat) : Nat × Nat × Nat :=
  let z' := z + 719468
  let era := z' / 146097
  let doe := z' % 146097
  let yoe := (doe - doe / 1460 + doe / 36524 - doe / 146096) / 365
  let y := yoe + era * 400
  let doy := doe - (365 * yoe + yoe / 4 - yoe / 100)
  let mp := (5 * doy + 2) / 153
  let d := doy - (153 * mp + 2) / 5 + 1
  let m := if mp < 10 then mp + 3 else mp - 9
  (if m ≤ 2 then y + 1 else y, m, d)

/-- Rendering of a positive epoch-millisecond timestamp in the fixed format
`%Y-%m-%d %H:%M:%S` of `datetime.fromtimestamp(ms / 1000).strftime(...)`.
The embedding is timezone-independent: local time is modelled as UTC. -/
def formatTs (ms : Int) : String :=
  let secs := (ms / 1000).toNat
  let days := secs / 86400
  let sod := secs % 86400
  let ymd := civilFromDays days
  pad4 ymd.1 ++ "-" ++ pad2 ymd.2.1 ++ "-" ++ pad2 ymd.2.2 ++ " " ++
    pad2 (sod / 3600) ++ ":" ++ pad2 (sod % 3600 / 60) ++ ":" ++ pad2 (sod % 60)

/-- First epoch millisecond `datetime.fromtimestamp` cannot represent:
`datetime.max` is 9999-12-31 23:59:59, whose epoch second is 253402300799;
from 253402300800000 ms on the conversion raises and the `except` branch of
`ms_to_readable` runs. -/
def datetimeMaxMs : Int := 253402300800000

/-- Embedding of `ms_to_readable` (extract_active_devices.py, lines 29-36):
non-numeric or non-positive input yields `""`; a positive in-range numeric
yields the formatted timestamp; a positive numeric whose conversion raises
yields `str(ts_ms)`.  Total by construction — no exception escapes. -/
def ms_to_readable (v : Value) : String :=
  match pyNum v with
  | none => ""
  | some n =>
    if n ≤ 0 then ""
    else if n < datetimeMaxMs then formatTs n else pyStr v

/-- Stage-1 match of the counting pipeline: `devices` exists, is an array and
is not the empty array (count_valid_device_users.py, lines 20-29). -/
def devicesNonEmptyStage (doc : UserDoc) : Bool :=
  match doc.devices with
  | some (_ :: _) => true
  | _ => false

/-- The `$elemMatch` element test: `device_id`, `created` and `last_access`
are all present (any value, including null). -/
def deviceHasAllFields (d : Device) : Bool :=
  d.device_id.isSome && d.created.isSome && d.last_access.isSome

/-- Stage-2 match of the counting pipeline: some element of `devices` has all
three required fields (count_valid_device_users.py, lines 30-41). -/
def elemMatchStage (doc : UserDoc) : Bool :=
  (doc.devices.getD []).any deviceHasAllFields

/-- Embedding of `count_users_with_valid_devices` (count_valid_device_users.py,
lines 18-64) over the collection contents: two `$match` stages, then
`$group {_id: None, count: {$sum: 1}}` (which emits no document on empty
input), then the Python `result[0][...] if result else 0` read-out. -/
def count_users_with_valid_devices (docs : List UserDoc) : Nat :=
  let matched := (docs.filter devicesNonEmptyStage).filter elemMatchStage
  let grouped : List Nat :=
    match matched with
    | [] => []
    | l => [l.length]
  match grouped with
  | [] => 0
  | c :: _ => c

/-- Match of the anchored regex `^[0-9]{18}$`: the whole string is exactly 18
decimal digits. -/
def is18DigitString (s : String) : Bool := s.data.length == 18 && s.data.all Char.isDigit

/-- Match of a value against the 18-digit regex: only strings can match. -/
def matches18 : Value → Bool
  | Value.vStr s => is18DigitString s
  | _ => false

/-- Effective `user_id` condition of the extraction `$match`
(extract_active_devices.py, lines 48-52).  The Python dict literal repeats the
key `"user_id"` (and, inside, the key `"$not"`), so only the last binding of
each survives: the condition that actually runs is
`user_id: {"$not": {"$regex": "^[0-9]{18}$"}}`.  Mongo's `$not` also matches
documents whose field is missing, null, or non-string (those never match the
regex), so the `$exists`/`$ne: None` clause and the `^eph\.` exclusion of the
source text are silently discarded. -/
def userIdCond (doc : UserDoc) : Bool :=
  match doc.user_id with
  | none => true
  | some v => !(matches18 v)

/-- Numeric `$gte` comparison: Mongo compares only values of the numeric BSON
class against a numeric bound (booleans, strings and null never match). -/
def numGte (v : Value) (bound : Int) : Bool :=
  match v with
  | Value.vInt n => bound ≤ n
  | _ => false

/-- Recency side of the extraction `$match` (extract_active_devices.py, lines
54-57): the dotted array paths `devices.last_access` / `authenticators.last_used`
match when some array element has the field present with value `≥` the
threshold; an absent array matches nothing. -/
def recencyCond (threshold : Int) (doc : UserDoc) : Bool :=
  (doc.devices.getD []).any (fun d =>
      match d.last_access with
      | some v => numGte v threshold
      | none => false) ||
  (doc.authenticators.getD []).any (fun a =>
      match a.last_used with
      | some v => numGte v threshold
      | none => false)

/-- The whole extraction `$match` stage as it effectively executes. -/
def matchStage (threshold : Int) (doc : UserDoc) : Bool :=
  userIdCond doc && recencyCond threshold doc

/-- Day count of the recency window (extract_active_devices.py, line 11). -/
def DAYS_THRESHOLD : Nat := 365

/-- Threshold computation `int((now - timedelta(days=DAYS_THRESHOLD)).timestamp() * 1000)`
(extract_active_devices.py, line 41), over a current time given in epoch
milliseconds. -/
def thresholdMs (nowMs : Int) : Int := nowMs - (DAYS_THRESHOLD : Int) * 86400000

/-- Semantics of `$unwind {path, preserveNullAndEmptyArrays: true}` on one
document's array field: one output per element, or a single output with the
field absent when the array is missing or empty. -/
def unwindOpt {α : Type} : Option (List α) → List (Option α)
  | none => [none]
  | some [] => [none]
  | some (x :: xs) => (x :: xs).map some

/-- Result of the two `$unwind` stages plus the `$project` for one document:
the retained `user_id` together with the (possibly absent) device and
authenticator sub-documents of this row. -/
structure PDoc where
  uid : Option Value
  dev : Option Device
  auth : Option Auth
deriving DecidableEq

/-- The two chained `$unwind` stages (extract_active_devices.py, lines 61-63):
the cross product of the two arrays, each side degraded to a single absent
placeholder when missing or empty. -/
def expandDoc (doc : UserDoc) : List PDoc :=
  (unwindOpt doc.devices).flatMap (fun d =>
    (unwindOpt doc.authenticators).map (fun a => PDoc.mk doc.user_id d a))

/-- Lexicographic BSON sort rank of one sort-key value: missing and null sort
together lowest, then numbers, then strings, then booleans, as in MongoDB's
cross-type sort order.  Strings are compared by their character sequences. -/
abbrev BsonKey := Lex (Nat × Lex (Int × Lex (List Char × Bool)))

/-- Encoding of a (possibly missing) field value as its BSON sort key. -/
def bsonKey : Option Value → BsonKey
  | none => toLex (0, toLex (0, toLex ([], false)))
  | some Value.vNull => toLex (0, toLex (0, toLex ([], false)))
  | some (Value.vInt n) => toLex (1, toLex (n, toLex ([], false)))
  | some (Value.vStr s) => toLex (2, toLex (0, toLex (s.data, false)))
  | some (Value.vBool b) => toLex (3, toLex (0, toLex ([], b)))

/-- Composite key of `$sort {device_last_access: -1, auth_last_used: -1}`
(extract_active_devices.py, lines 81-86): primary key is the device's
`last_access` projection, secondary key the authenticator's `last_used`. -/
def sortKey (p : PDoc) : Lex (BsonKey × BsonKey) :=
  toLex (bsonKey (p.dev.bind Device.last_access), bsonKey (p.auth.bind Auth.last_used))

/-- Order in which `$sort` emits rows: `a` may precede `b` when `a`'s
composite key is at least `b`'s (both keys descending). -/
def sortedBefore (a b : PDoc) : Prop := sortKey b ≤ sortKey a

instance : DecidableRel sortedBefore :=
  fun a b => inferInstanceAs (Decidable (sortKey b ≤ sortKey a))

instance : IsTotal PDoc sortedBefore :=
  ⟨fun a b => (le_total (sortKey b) (sortKey a)).imp id id⟩

instance : IsTrans PDoc sortedBefore :=
  ⟨fun _ _ _ hab hbc => le_trans hbc hab⟩

/-- Rows of the pipeline up to the `$project` stage, before sorting. -/
def rawRecords (threshold : Int) (docs : List UserDoc) : List PDoc :=
  (docs.filter (matchStage threshold)).flatMap expandDoc

/-- The `$sort` stage, modelled as a stable sort by the composite key. -/
def sortRecords (l : List PDoc) : List PDoc := List.insertionSort sortedBefore l

/-- Rows of the pipeline after sorting, for a run whose current time is
`nowMs`. -/
def orderedRecords (nowMs : Int) (docs : List UserDoc) : List PDoc :=
  sortRecords (rawRecords (thresholdMs nowMs) docs)

/-- One output row of the extraction script (the dict built per cursor
document, extract_active_devices.py, lines 94-107). -/
structure Row where
  uid : Value
  device_id : Value
  registered : String
  last_access : String
  method : Value
  status : Value
  provider_config_id : Value
  expired : Value
deriving DecidableEq

/-- Field resolution of one projected row (extract_active_devices.py, lines
94-107): `dict.get` with defaults for `uid`, `method`, `status`,
`provider_config_id`, `expired`; Python `or` fallback chains for `device_id`,
`registered` and `last_access`, the last two normalized by `ms_to_readable`. -/
def resolveRow (u : Option Value) (d : Option Device) (a : Option Auth) : Row :=
  { uid := u.getD (Value.vStr "")
    device_id :=
      pyOr (getV (d.bind Device.device_id))
        (pyOr (getV (a.bind Auth.device_id)) (Value.vStr ""))
    registered :=
      ms_to_readable (pyOr (getV (d.bind Device.created)) (getV (a.bind Auth.last_used)))
    last_access :=
      ms_to_readable (pyOr (getV (d.bind Device.last_access))
        (pyOr (getV (a.bind Auth.last_used)) (Value.vInt 0)))
    method := (a.bind Auth.method).getD (Value.vStr "")
    status := (a.bind Auth.status).getD (Value.vStr "")
    provider_config_id := (a.bind Auth.provider_config_id).getD (Value.vStr "")
    expired := (a.bind Auth.expired).getD (Value.vBool false) }

/-- Resolution applied to every projected row. -/
def resolveAll (l : List PDoc) : List Row :=
  l.map (fun p => resolveRow p.uid p.dev p.auth)

/-- Embedding of `extract_flattened_devices` (extract_active_devices.py, lines
39-111) over the collection contents, for a run whose current time is
`nowMs`: match, double unwind, project, sort, then the Python resolution
loop. -/
def extract_flattened_devices (nowMs : Int) (docs : List UserDoc) : List Row :=
  resolveAll (orderedRecords nowMs docs)

/-- Parameter names accepted by `Logger.__init__`
(count_valid_device_users.py, lines 6-8): only `level` (besides `self`). -/
def loggerParamNames : List String := ["level"]

/-- Error message of a Python keyword-argument mismatch. -/
def typeErrorMsg : String := "TypeError: unexpected keyword argument"

/-- Python keyword binding for the `Logger(...)` call: every keyword must name
a declared parameter, otherwise the call raises `TypeError`. -/
def loggerInitKw (kwargs : List (String × Int)) : Except String Int :=
  if (kwargs.map Prod.fst).all (fun k => loggerParamNames.contains k) then
    Except.ok ((kwargs.lookup "level").getD 0)
  else
    Except.error typeErrorMsg

/-- Embedding of the counting script's `__main__` block
(count_valid_device_users.py, lines 67-95), with the connection plumbing
elided: argument-count check, then `Logger(loglevel=0)` (line 91), then the
call to `count_users_with_valid_devices`. -/
def countMain (argv : List String) (docs : List UserDoc) : Except String Nat :=
  if argv.length < 5 then
    Except.error "usage"
  else
    match loggerInitKw [("loglevel", 0)] with
    | Except.error e => Except.error e
    | Except.ok _ => Except.ok (count_users_with_valid_devices docs)

/-- Counting-path admission as the conjunction of the two `$match` stages the
counting pipeline filters by. -/
def countingAdmit (doc : UserDoc) : Bool :=
  devicesNonEmptyStage doc && elemMatchStage doc

/-- Spec-side fallback chain: the first source that is present and truthy
wins, else the default ("left-to-right fallback — first present/truthy source
wins, else empty string or default"). -/
def firstGood : List (Option Value) → Value → Value
  | [], dflt => dflt
  | o :: rest, dflt =>
    match o with
    | some v => if truthy v then v else firstGood rest dflt
    | none => firstGood rest dflt

/-- Numeric timestamp underlying a row's resolved `last_access`: the value
fed to `ms_to_readable` by its fallback chain, read as a number. -/
def resolvedNum (p : PDoc) : Int :=
  match pyOr (getV (p.dev.bind Device.last_access))
      (pyOr (getV (p.auth.bind Auth.last_used)) (Value.vInt 0)) with
  | Value.vInt n => n
  | _ => 0

/-- Numeric authenticator `last_used` of a row, zero when absent or
non-numeric. -/
def authUsedNum (p : PDoc) : Int :=
  match p.auth.bind Auth.last_used with
  | some (Value.vInt n) => n
  | _ => 0

/-- Sort key the spec claims for the output: resolved `last_access` number
first, authenticator `last_used` number second, both descending. -/
def claimKey (p : PDoc) : Lex (Int × Int) := toLex (resolvedNum p, authUsedNum p)

/-- A document whose `user_id` matches the ephemeral pattern `^eph\.` and that
has one recent, fully populated device. -/
def ephDoc : UserDoc :=
  UserDoc.mk (some (Value.vStr "eph.user1"))
    (some [Device.mk (some (Value.vStr "d1")) (some (Value.vInt 500)) (some (Value.vInt 1000))])
    none

/-- A document with no `user_id` at all and one recent device. -/
def noUserIdDoc : UserDoc :=
  UserDoc.mk none
    (some [Device.mk (some (Value.vStr "d2")) (some (Value.vInt 500)) (some (Value.vInt 1000))])
    none

/-- Concrete document with two devices and one authenticator. -/
def crossDoc : UserDoc :=
  UserDoc.mk (some (Value.vStr "u3"))
    (some [Device.mk (some (Value.vStr "d1")) (some (Value.vInt 100)) (some (Value.vInt 1000)),
           Device.mk (some (Value.vStr "d2")) none (some (Value.vInt 900))])
    (some [Auth.mk (some (Value.vStr "otp")) none (some (Value.vInt 800)) none none none])

/-- Concrete document with two devices and no `authenticators` field. -/
def devOnlyDoc : UserDoc :=
  UserDoc.mk (some (Value.vStr "u4"))
    (some [Device.mk (some (Value.vStr "d1")) (some (Value.vInt 100)) (some (Value.vInt 1000)),
           Device.mk none none (some (Value.vInt 900))])
    none

/-- Concrete document with two authenticators and an empty `devices` array. -/
def authOnlyDoc : UserDoc :=
  UserDoc.mk (some (Value.vStr "u5")) (some [])
    (some [Auth.mk (some (Value.vStr "otp")) none (some (Value.vInt 800)) none none none,
           Auth.mk (some (Value.vStr "push")) none (some (Value.vInt 700)) none none none])

/-- Concrete document with both arrays absent. -/
def bareDoc : UserDoc := UserDoc.mk (some (Value.vStr "u6")) none none

/-- Document that yields one row whose device-side `last_access` is 1000 and
that has no authenticator. -/
def sortDocA : UserDoc :=
  UserDoc.mk (some (Value.vStr "u1"))
    (some [Device.mk (some (Value.vStr "d1")) (some (Value.vInt 500)) (some (Value.vInt 1000))])
    none

/-- Document that yields one row with no device side but an authenticator
whose `last_used` is 2000: its resolved `last_access` is 2000, larger than
`sortDocA`'s 1000, yet its device-side sort key is missing. -/
def sortDocB : UserDoc :=
  UserDoc.mk (some (Value.vStr "u2")) none
    (some [Auth.mk (some (Value.vStr "otp")) none (some (Value.vInt 2000)) none none none])

/-- First of two documents producing rows with identical sort keys. -/
def stableDoc1 : UserDoc :=
  UserDoc.mk (some (Value.vStr "w1"))
    (some [Device.mk none none (some (Value.vInt 5))]) none

/-- Second of two documents producing rows with identical sort keys. -/
def stableDoc2 : UserDoc :=
  UserDoc.mk (some (Value.vStr "w2"))
    (some [Device.mk none none (some (Value.vInt 5))]) none

/-- The row `stableDoc1` contributes to the pipeline before sorting. -/
def stableRec1 : PDoc :=
  PDoc.mk (some (Value.vStr "w1")) (some (Device.mk none none (some (Value.vInt 5)))) none

/-- The row `stableDoc2` contributes to the pipeline before sorting. -/
def stableRec2 : PDoc :=
  PDoc.mk (some (Value.vStr "w2")) (some (Device.mk none none (some (Value.vInt 5)))) none

/-- Document with one device whose `last_access` is recent. -/
def recentDoc : UserDoc :=
  UserDoc.mk (some (Value.vStr "u7"))
    (some [Device.mk (some (Value.vStr "d7")) (some (Value.vInt 3)) (some (Value.vInt 7))])
    none

theorem ms_to_readable_falsy (v : Value) (h : truthy v = false) : ms_to_readable v = "" := by
  cases v with
  | vNull => rfl
  | vInt n =>
    simp only [truthy, Bool.not_eq_false', beq_iff_eq] at h
    simp [ms_to_readable, pyNum, h]
  | vStr s => rfl
  | vBool b =>
    simp only [truthy] at h
    simp [ms_to_readable, pyNum, h]

theorem firstGood_pair (o1 o2 : Option Value) (dflt : Value) :
    firstGood [o1, o2] dflt = pyOr (getV o1) (pyOr (getV o2) dflt) := by
  cases o1 <;> cases o2 <;>
    simp only [firstGood, getV, pyOr, truthy, Option.getD_none, Option.getD_some] <;>
    split <;> simp_all [firstGood]

theorem ms_pyOr_vNull (x y : Value) :
    ms_to_readable (pyOr x (pyOr y Value.vNull)) = ms_to_readable (pyOr x y) := by
  unfold pyOr
  cases hx : truthy x
  · simp only [Bool.false_eq_true, if_false]
    cases hy : truthy y
    · simp only [Bool.false_eq_true, if_false]
      rw [ms_to_readable_falsy y hy]
      rfl
    · simp
  · simp

theorem unwindOpt_of_ne {α : Type} (l : List α) (h : l ≠ []) :
    unwindOpt (some l) = l.map some := by
  cases l with
  | nil => exact absurd rfl h
  | cons x xs => rfl

theorem length_flatMap_const {α β : Type} (l : List α) (f : α → List β) (n : Nat)
    (h : ∀ a, (f a).length = n) : (l.flatMap f).length = l.length * n := by
  induction l with
  | nil => simp
  | cons x xs ih =>
    simp only [List.flatMap_cons, List.length_append, ih, h x, List.length_cons]
    ring

theorem flatMap_single {α β : Type} (l : List α) (f : α → β) :
    (l.flatMap fun a => [f a]) = l.map f := by
  induction l with
  | nil => rfl
  | cons x xs ih => simp [List.flatMap_cons, ih]

theorem count_eq_length (docs : List UserDoc) :
    count_users_with_valid_devices docs =
      ((docs.filter devicesNonEmptyStage).filter elemMatchStage).length := by
  cases h : (docs.filter devicesNonEmptyStage).filter elemMatchStage <;>
    simp [count_users_with_valid_devices, h]

/-- C1: the claim says the identifier-exclusion predicate admits a document
only if `user_id` exists, is non-null, does not start with `eph.` and is not
an 18-digit string.  The code violates this: the `$match` dict literal binds
the key `"user_id"` twice (and `"$not"` twice inside), so only the 18-digit
exclusion executes.  A document with the ephemeral `user_id` `"eph.user1"`
and a recent device, and one with no `user_id` at all, are both admitted, and
the former flows through the whole extraction pipeline. -/
theorem effective_match_admits_excluded_ids :
    matchStage (thresholdMs 31536000000) ephDoc = true ∧
    matchStage (thresholdMs 31536000000) noUserIdDoc = true ∧
    (extract_flattened_devices 31536000000 [ephDoc]).length = 1 := by
  exact ⟨by decide, by decide, by decide⟩

/-- C2: the counting predicate admits a document iff `devices` exists as a
non-empty array and some element has `device_id`, `created` and `last_access`
all present (presence, not truthiness), independently of other elements. -/
theorem counting_predicate_characterization (doc : UserDoc) :
    countingAdmit doc = true ↔
      ∃ ds : List Device, doc.devices = some ds ∧ ds ≠ [] ∧
        ∃ d ∈ ds, d.device_id.isSome = true ∧ d.created.isSome = true ∧
          d.last_access.isSome = true := by
  unfold countingAdmit devicesNonEmptyStage elemMatchStage deviceHasAllFields
  cases h : doc.devices with
  | none => simp [h]
  | some ds =>
    cases ds with
    | nil => simp [h]
    | cons x xs =>
      simp [h, List.any_eq_true, Bool.and_eq_true, and_assoc]

/-- C3: a document admitted into extraction with m ≥ 1 devices and n ≥ 1
authenticators expands into exactly m * n rows. -/
theorem expansion_cross_product (t : Int) (doc : UserDoc) (ds : List Device)
    (al : List Auth) (_hadm : matchStage t doc = true) (hd : doc.devices = some ds)
    (hd0 : ds ≠ []) (ha : doc.authenticators = some al) (ha0 : al ≠ []) :
    (expandDoc doc).length = ds.length * al.length := by
  unfold expandDoc
  rw [hd, ha, unwindOpt_of_ne ds hd0, unwindOpt_of_ne al ha0]
  rw [length_flatMap_const _ _ al.length (fun a => by simp)]
  simp

/-- Witness for C3 at a concrete admitted document with 2 devices and 1
authenticator. -/
theorem expansion_cross_product_witness :
    matchStage 0 crossDoc = true ∧ (expandDoc crossDoc).length = 2 * 1 :=
  ⟨by decide,
    expansion_cross_product 0 crossDoc _ _ (by decide) rfl (by decide) rfl (by decide)⟩

/-- C4: an admitted document with m ≥ 1 devices and absent/empty
authenticators yields exactly m rows whose authenticator-derived fields take
their defaults; symmetrically, authenticators without devices yield one row
per authenticator; a document with both arrays absent or empty expands to a
single row with both sides absent. -/
theorem expansion_defaults_and_placeholders :
    (∀ (t : Int) (doc : UserDoc) (ds : List Device),
        matchStage t doc = true → doc.devices = some ds → ds ≠ [] →
        (doc.authenticators = none ∨ doc.authenticators = some []) →
        (resolveAll (expandDoc doc)).length = ds.length ∧
          ∀ r ∈ resolveAll (expandDoc doc),
            r.method = Value.vStr "" ∧ r.status = Value.vStr "" ∧
              r.provider_config_id = Value.vStr "" ∧ r.expired = Value.vBool false) ∧
    (∀ (t : Int) (doc : UserDoc) (al : List Auth),
        matchStage t doc = true → doc.authenticators = some al → al ≠ [] →
        (doc.devices = none ∨ doc.devices = some []) →
        (resolveAll (expandDoc doc)).length = al.length) ∧
    (∀ doc : UserDoc,
        (doc.devices = none ∨ doc.devices = some []) →
        (doc.authenticators = none ∨ doc.authenticators = some []) →
        expandDoc doc = [PDoc.mk doc.user_id none none]) := by
  refine ⟨?_, ?_, ?_⟩
  · intro t doc ds _ hd hd0 hauth
    have hA : unwindOpt doc.authenticators = [none] := by
      rcases hauth with h | h <;> rw [h] <;> rfl
    have hexp : expandDoc doc = (ds.map some).map (fun d => PDoc.mk doc.user_id d none) := by
      unfold expandDoc
      rw [hd, unwindOpt_of_ne ds hd0, hA]
      simp only [List.map_cons, List.map_nil]
      exact flatMap_single _ _
    unfold resolveAll
    rw [hexp]
    constructor
    · simp
    · intro r hr
      simp only [List.map_map, List.mem_map, Function.comp] at hr
      obtain ⟨d, _, rfl⟩ := hr
      exact ⟨rfl, rfl, rfl, rfl⟩
  · intro t doc al _ ha ha0 hdev
    have hD : unwindOpt doc.devices = [none] := by
      rcases hdev with h | h <;> rw [h] <;> rfl
    unfold expandDoc resolveAll
    rw [ha, hD, unwindOpt_of_ne al ha0]
    simp
  · intro doc hdev hauth
    have hD : unwindOpt doc.devices = [none] := by
      rcases hdev with h | h <;> rw [h] <;> rfl
    have hA : unwindOpt doc.authenticators = [none] := by
      rcases hauth with h | h <;> rw [h] <;> rfl
    unfold expandDoc
    rw [hD, hA]
    rfl

/-- Witness for C4 at concrete documents: two devices and no authenticators
(2 rows with defaults), an empty devices array and two authenticators
(2 rows), and a document with both arrays absent (1 placeholder row). -/
theorem expansion_defaults_and_placeholders_witness :
    ((resolveAll (expandDoc devOnlyDoc)).length = 2 ∧
      ∀ r ∈ resolveAll (expandDoc devOnlyDoc),
        r.method = Value.vStr "" ∧ r.status = Value.vStr "" ∧
          r.provider_config_id = Value.vStr "" ∧ r.expired = Value.vBool false) ∧
    (resolveAll (expandDoc authOnlyDoc)).length = 2 ∧
    expandDoc bareDoc = [PDoc.mk (some (Value.vStr "u6")) none none] :=
  ⟨expansion_defaults_and_placeholders.1 0 devOnlyDoc _ (by decide) rfl (by decide)
      (Or.inl rfl),
    expansion_defaults_and_placeholders.2.1 0 authOnlyDoc _ (by decide) rfl (by decide)
      (Or.inr rfl),
    expansion_defaults_and_placeholders.2.2 bareDoc (Or.inl rfl) (Or.inl rfl)⟩

/-- C5: each output field of the Field Resolver is computed independently by
its left-to-right fallback chain — `uid`, `method`, `status`,
`provider_config_id` and `expired` by presence with their defaults, and
`device_id`, `registered` and `last_access` by the first present-and-truthy
source, the latter two normalized by `ms_to_readable`. -/
theorem field_resolver_fallback_chains (u : Option Value) (d : Option Device)
    (a : Option Auth) :
    (resolveRow u d a).uid = u.getD (Value.vStr "") ∧
    (resolveRow u d a).device_id =
      firstGood [d.bind Device.device_id, a.bind Auth.device_id] (Value.vStr "") ∧
    (resolveRow u d a).registered =
      ms_to_readable (firstGood [d.bind Device.created, a.bind Auth.last_used] Value.vNull) ∧
    (resolveRow u d a).last_access =
      ms_to_readable
        (firstGood [d.bind Device.last_access, a.bind Auth.last_used] (Value.vInt 0)) ∧
    (resolveRow u d a).method = (a.bind Auth.method).getD (Value.vStr "") ∧
    (resolveRow u d a).status = (a.bind Auth.status).getD (Value.vStr "") ∧
    (resolveRow u d a).provider_config_id =
      (a.bind Auth.provider_config_id).getD (Value.vStr "") ∧
    (resolveRow u d a).expired = (a.bind Auth.expired).getD (Value.vBool false) := by
  refine ⟨rfl, ?_, ?_, ?_, rfl, rfl, rfl, rfl⟩
  · rw [firstGood_pair]; rfl
  · rw [firstGood_pair]
    exact (ms_pyOr_vNull _ _).symm
  · rw [firstGood_pair]; rfl

/-- C6: `ms_to_readable` is total and case-splits as the spec says: non-numeric
or non-positive input yields the empty string, a positive in-range numeric
yields the fixed-format timestamp string, and a positive numeric outside the
convertible range yields its raw string representation. -/
theorem ms_to_readable_total_cases (v : Value) :
    (pyNum v = none → ms_to_readable v = "") ∧
    (∀ n : Int, pyNum v = some n → n ≤ 0 → ms_to_readable v = "") ∧
    (∀ n : Int, pyNum v = some n → 0 < n → n < datetimeMaxMs →
      ms_to_readable v = formatTs n) ∧
    (∀ n : Int, pyNum v = some n → 0 < n → datetimeMaxMs ≤ n →
      ms_to_readable v = pyStr v) := by
  refine ⟨?_, ?_, ?_, ?_⟩
  · intro h
    simp [ms_to_readable, h]
  · intro n h hn
    simp [ms_to_readable, h, hn]
  · intro n h hn hlt
    simp only [ms_to_readable, h]
    rw [if_neg (by omega), if_pos hlt]
  · intro n h hn hge
    simp only [ms_to_readable, h]
    rw [if_neg (by omega), if_neg (by omega)]

/-- Witness for C6 at one concrete input per case: a string, zero, an
in-range positive timestamp, and an out-of-range positive timestamp. -/
theorem ms_to_readable_total_cases_witness :
    ms_to_readable (Value.vStr "abc") = "" ∧
    ms_to_readable (Value.vInt 0) = "" ∧
    ms_to_readable (Value.vInt 1700000000000) = formatTs 1700000000000 ∧
    ms_to_readable (Value.vInt 253402300800000) = pyStr (Value.vInt 253402300800000) :=
  ⟨(ms_to_readable_total_cases (Value.vStr "abc")).1 rfl,
    (ms_to_readable_total_cases (Value.vInt 0)).2.1 0 rfl (by decide),
    (ms_to_readable_total_cases (Value.vInt 1700000000000)).2.2.1 1700000000000 rfl
      (by decide) (by decide),
    (ms_to_readable_total_cases (Value.vInt 253402300800000)).2.2.2 253402300800000 rfl
      (by decide) (by decide)⟩

/-- C7 counterexample: the output is NOT sorted by the resolved `last_access`
numeric value.  `sortDocA`'s row has resolved `last_access` 1000 and
`sortDocB`'s has 2000 (via the authenticator fallback), yet the pipeline
sorts by the device-side `last_access` only, so the row with 1000 comes
first. -/
theorem sort_claim_counterexample :
    ¬ (orderedRecords 31536000000 [sortDocA, sortDocB]).Pairwise
        (fun a b => claimKey b ≤ claimKey a) := by decide

/-- C7 as amended: the output is sorted descending by the device-side
`last_access` sort key, ties broken by the authenticator `last_used` key
descending (missing values lowest, so they sort last), and rows with equal
composite keys keep their original relative order. -/
theorem sort_by_device_key_sorted_and_stable (nowMs : Int) (docs : List UserDoc) :
    (orderedRecords nowMs docs).Pairwise sortedBefore ∧
    (∀ a b : PDoc, sortKey a = sortKey b →
        [a, b].Sublist (rawRecords (thresholdMs nowMs) docs) →
        [a, b].Sublist (orderedRecords nowMs docs)) := by
  constructor
  · exact List.sorted_insertionSort sortedBefore _
  · intro a b hk hs
    exact List.pair_sublist_insertionSort (le_of_eq hk.symm) hs

/-- Witness for the amended C7: two documents whose rows carry identical sort
keys stay in their original order in the sorted output. -/
theorem sort_by_device_key_witness :
    (orderedRecords 31536000000 [stableDoc1, stableDoc2]).Pairwise sortedBefore ∧
    [stableRec1, stableRec2].Sublist (orderedRecords 31536000000 [stableDoc1, stableDoc2]) :=
  ⟨(sort_by_device_key_sorted_and_stable 31536000000 [stableDoc1, stableDoc2]).1,
    (sort_by_device_key_sorted_and_stable 31536000000 [stableDoc1, stableDoc2]).2
      stableRec1 stableRec2 (by decide) (by decide)⟩

/-- C8: a document admitted by the extraction `$match` at current time
`nowMs` has some device whose `last_access` is a number at least
`nowMs - 365 * 86400000`, or some authenticator whose `last_used` is. -/
theorem recency_gate_only_if (nowMs : Int) (doc : UserDoc)
    (h : matchStage (thresholdMs nowMs) doc = true) :
    (∃ d ∈ doc.devices.getD [], ∃ n : Int,
        d.last_access = some (Value.vInt n) ∧ nowMs - 365 * 86400000 ≤ n) ∨
    (∃ a ∈ doc.authenticators.getD [], ∃ n : Int,
        a.last_used = some (Value.vInt n) ∧ nowMs - 365 * 86400000 ≤ n) := by
  have hthr : thresholdMs nowMs = nowMs - 365 * 86400000 := by
    unfold thresholdMs DAYS_THRESHOLD
    norm_num
  rw [matchStage, Bool.and_eq_true] at h
  have hr := h.2
  rw [recencyCond, Bool.or_eq_true, List.any_eq_true, List.any_eq_true] at hr
  rcases hr with ⟨d, hd, hcond⟩ | ⟨a, ha, hcond⟩
  · left
    refine ⟨d, hd, ?_⟩
    cases hl : d.last_access with
    | none => rw [hl] at hcond; cases hcond
    | some v =>
      rw [hl] at hcond
      cases v with
      | vInt n =>
        refine ⟨n, rfl, ?_⟩
        rw [hthr] at hcond
        exact of_decide_eq_true hcond
      | vNull => cases hcond
      | vStr s => cases hcond
      | vBool b => cases hcond
  · right
    refine ⟨a, ha, ?_⟩
    cases hl : a.last_used with
    | none => rw [hl] at hcond; cases hcond
    | some v =>
      rw [hl] at hcond
      cases v with
      | vInt n =>
        refine ⟨n, rfl, ?_⟩
        rw [hthr] at hcond
        exact of_decide_eq_true hcond
      | vNull => cases hcond
      | vStr s => cases hcond
      | vBool b => cases hcond

/-- Witness for C8 at a concrete admitted document. -/
theorem recency_gate_only_if_witness :
    (∃ d ∈ recentDoc.devices.getD [], ∃ n : Int,
        d.last_access = some (Value.vInt n) ∧ 31536000000 - 365 * 86400000 ≤ n) ∨
    (∃ a ∈ recentDoc.authenticators.getD [], ∃ n : Int,
        a.last_used = some (Value.vInt n) ∧ 31536000000 - 365 * 86400000 ≤ n) :=
  recency_gate_only_if 31536000000 recentDoc (by decide)

/-- C9: the counting path returns exactly the number of admitted documents
(one per document, never per device), and the empty collection yields the
integer 0 rather than an error. -/
theorem counting_path_cardinality :
    (∀ docs : List UserDoc,
        count_users_with_valid_devices docs = (docs.filter countingAdmit).length) ∧
    count_users_with_valid_devices [] = 0 := by
  constructor
  · intro docs
    rw [count_eq_length, List.filter_filter]
    congr 1
    exact List.filter_congr (fun a _ => by unfold countingAdmit; rw [Bool.and_comm])
  · rfl

/-- C10: any run of the counting script's entry point that passes the
argument-count check fails with a `TypeError` at `Logger(loglevel=0)` —
`Logger.__init__` accepts only `level` — so `count_users_with_valid_devices`
is never reached from this entry point. -/
theorem count_entry_point_type_error (argv : List String) (docs : List UserDoc)
    (h : 5 ≤ argv.length) : countMain argv docs = Except.error typeErrorMsg := by
  unfold countMain
  rw [if_neg (Nat.not_lt.mpr h)]
  rw [show loggerInitKw [("loglevel", 0)] = Except.error typeErrorMsg from rfl]

/-- Witness for C10 at a concrete five-element argument vector. -/
theorem count_entry_point_type_error_witness :
    countMain ["prog", "host", "27017", "db", "user"] [] = Except.error typeErrorMsg :=
  count_entry_point_type_error ["prog", "host", "27017", "db", "user"] [] (by decide)

end MongoRepo
